import Mathlib

/-!
Verification development for the atomic-swap coordination core of the
xmr-btc-swap repository.

The Rust modules embedded here are:
  * `swap/src/env.rs` — deployment-tier configuration and `sync_interval`;
  * `swap/src/network/spot_price.rs` — negotiation response wire types and
    their structured (serde) encoding;
  * `swap/src/protocol/alice/execution_setup.rs` — the listener side of the
    three-message setup handshake, embedded as a trace-producing function.

Machine integers are modelled as `Nat` (all quantities involved are
non-negative counters: nanoseconds, satoshi, piconero, block counts).
`std::time::Duration` is modelled as a count of nanoseconds; Rust's
`Duration / 10` truncates at nanosecond precision, which is `Nat` division
on the nanosecond count.
-/

namespace XmrBtcSwap

/-- Rust `std::time::Duration`, as a total count of nanoseconds. -/
abbrev Duration := Nat

/-- `Duration::from_secs`. -/
def Duration.from_secs (s : Nat) : Duration := s * 1000000000

/-- The `time` crate's `.seconds()` helper used in `env.rs`. -/
def Duration.seconds (n : Nat) : Duration := n * 1000000000

/-- The `time` crate's `.minutes()` helper used in `env.rs`. -/
def Duration.minutes (n : Nat) : Duration := n * 60 * 1000000000

/-- The `time` crate's `.hours()` helper used in `env.rs`. -/
def Duration.hours (n : Nat) : Duration := n * 3600 * 1000000000

namespace bitcoin

/-- The `bitcoin` crate's `Network` enumeration, as matched exhaustively in
`spot_price.rs` (variants `Bitcoin`, `Testnet`, `Signet`, `Regtest`). -/
inductive Network where
  | Bitcoin
  | Testnet
  | Signet
  | Regtest
deriving DecidableEq

end bitcoin

namespace monero

/-- The `monero` crate's `Network` enumeration, as matched exhaustively in
`spot_price.rs` (variants `Mainnet`, `Stagenet`, `Testnet`). -/
inductive Network where
  | Mainnet
  | Stagenet
  | Testnet
deriving DecidableEq

end monero

/-- Modelled from the spec: `crate::bitcoin::CancelTimelock` (its definition
lives outside the provided sources) is an integer count of chain-1 blocks,
constructed by `CancelTimelock::new`. -/
structure CancelTimelock where
  blocks : Nat
deriving DecidableEq

/-- Constructor `CancelTimelock::new` used by `env.rs`. -/
def CancelTimelock.new (n : Nat) : CancelTimelock := ⟨n⟩

/-- Modelled from the spec: `crate::bitcoin::PunishTimelock`, an integer count
of chain-1 blocks counted from cancellation. -/
structure PunishTimelock where
  blocks : Nat
deriving DecidableEq

/-- Constructor `PunishTimelock::new` used by `env.rs`. -/
def PunishTimelock.new (n : Nat) : PunishTimelock := ⟨n⟩

namespace env

/-- `swap/src/env.rs` `Config`: the per-deployment-tier parameter record. -/
structure Config where
  bitcoin_lock_confirmed_timeout : Duration
  bitcoin_finality_confirmations : Nat
  bitcoin_avg_block_time : Duration
  bitcoin_cancel_timelock : CancelTimelock
  bitcoin_punish_timelock : PunishTimelock
  bitcoin_network : bitcoin.Network
  monero_avg_block_time : Duration
  monero_finality_confirmations : Nat
  monero_network : monero.Network
deriving DecidableEq

/-- `env.rs` `sync_interval`: `max(avg_block_time / 10, Duration::from_secs(1))`. -/
def sync_interval (avg_block_time : Duration) : Duration :=
  max (avg_block_time / 10) (Duration.from_secs 1)

/-- `Config::bitcoin_sync_interval`. -/
def Config.bitcoin_sync_interval (c : Config) : Duration :=
  sync_interval c.bitcoin_avg_block_time

/-- `Config::monero_sync_interval`. -/
def Config.monero_sync_interval (c : Config) : Duration :=
  sync_interval c.monero_avg_block_time

/-- `Config::with_bitcoin_finality_confirmations`: takes the receiver by value
(`mut self`), assigns the field, and returns the modified copy. -/
def Config.with_bitcoin_finality_confirmations (c : Config) (n : Nat) : Config :=
  { c with bitcoin_finality_confirmations := n }

/-- `Config::with_monero_finality_confirmations`: same pattern for the monero
finality-confirmation count. -/
def Config.with_monero_finality_confirmations (c : Config) (n : Nat) : Config :=
  { c with monero_finality_confirmations := n }

/-- `impl GetConfig for Mainnet` in `env.rs`. -/
def Mainnet.get_config : Config :=
  { bitcoin_lock_confirmed_timeout := Duration.hours 24
    bitcoin_finality_confirmations := 3
    bitcoin_avg_block_time := Duration.minutes 10
    bitcoin_cancel_timelock := CancelTimelock.new 72
    bitcoin_punish_timelock := PunishTimelock.new 72
    bitcoin_network := bitcoin.Network.Bitcoin
    monero_avg_block_time := Duration.minutes 2
    monero_finality_confirmations := 15
    monero_network := monero.Network.Mainnet }

/-- `impl GetConfig for Testnet` in `env.rs`. -/
def Testnet.get_config : Config :=
  { bitcoin_lock_confirmed_timeout := Duration.hours 12
    bitcoin_finality_confirmations := 1
    bitcoin_avg_block_time := Duration.minutes 5
    bitcoin_cancel_timelock := CancelTimelock.new 12
    bitcoin_punish_timelock := PunishTimelock.new 6
    bitcoin_network := bitcoin.Network.Testnet
    monero_avg_block_time := Duration.minutes 2
    monero_finality_confirmations := 10
    monero_network := monero.Network.Stagenet }

/-- `impl GetConfig for Regtest` in `env.rs` (note the source comment on its
monero network: `// yes this is strange`). -/
def Regtest.get_config : Config :=
  { bitcoin_lock_confirmed_timeout := Duration.minutes 1
    bitcoin_finality_confirmations := 1
    bitcoin_avg_block_time := Duration.seconds 5
    bitcoin_cancel_timelock := CancelTimelock.new 100
    bitcoin_punish_timelock := PunishTimelock.new 50
    bitcoin_network := bitcoin.Network.Regtest
    monero_avg_block_time := Duration.seconds 1
    monero_finality_confirmations := 10
    monero_network := monero.Network.Mainnet }

end env

namespace spot_price

/-- Wire-level bitcoin network tag of `spot_price.rs`. -/
inductive BitcoinNetwork where
  | Mainnet
  | Testnet
  | Signet
  | Regtest
deriving DecidableEq

/-- Wire-level monero network tag of `spot_price.rs`. -/
inductive MoneroNetwork where
  | Mainnet
  | Stagenet
  | Testnet
deriving DecidableEq

/-- `spot_price.rs` `BlockchainNetwork`: the pair of declared network tags. -/
structure BlockchainNetwork where
  bitcoin : BitcoinNetwork
  monero : MoneroNetwork
deriving DecidableEq

/-- `impl From<bitcoin::Network> for BitcoinNetwork`: the exhaustive match of
`spot_price.rs` (no fall-through arm, no panic). -/
def BitcoinNetwork.from_chain : bitcoin.Network → BitcoinNetwork
  | .Bitcoin => .Mainnet
  | .Testnet => .Testnet
  | .Signet => .Signet
  | .Regtest => .Regtest

/-- `impl From<monero::Network> for MoneroNetwork`: the exhaustive match of
`spot_price.rs` (no fall-through arm, no panic). -/
def MoneroNetwork.from_chain : monero.Network → MoneroNetwork
  | .Mainnet => .Mainnet
  | .Stagenet => .Stagenet
  | .Testnet => .Testnet

/-- Conversion of a pair of chain-client network identities into the
wire-level `BlockchainNetwork`, component-wise through the two `From`
implementations. -/
def BlockchainNetwork.of_chain (b : bitcoin.Network) (m : monero.Network) :
    BlockchainNetwork :=
  ⟨BitcoinNetwork.from_chain b, MoneroNetwork.from_chain m⟩

/-- `spot_price.rs` rejection reasons (`enum Error`). Monetary amounts are
integer smallest-unit counts: bitcoin amounts serialize `as_sat` (satoshi),
monero amounts as piconero. -/
inductive Error where
  | NoSwapsAccepted
  | AmountBelowMinimum (min buy : Nat)
  | AmountAboveMaximum (max buy : Nat)
  | BalanceTooLow (buy : Nat)
  | BlockchainNetworkMismatch (cli asb : BlockchainNetwork)
  | Other
deriving DecidableEq

/-- `spot_price.rs` `enum Response`: either a quoted monero amount (piconero)
or a structured rejection. -/
inductive Response where
  | Xmr (amount : Nat)
  | Error (e : Error)
deriving DecidableEq

/-- Structured (JSON-shaped) values, the target of serde's self-describing
encoding as exercised by `snapshot_test_serialize` in `spot_price.rs`. -/
inductive Json where
  | num (n : Nat)
  | str (s : String)
  | obj (fields : List (String × Json))

/-- Serde encoding of `BitcoinNetwork`: a unit enum variant encodes as its
name string. -/
def encodeBitcoinNetwork : BitcoinNetwork → Json
  | .Mainnet => .str "Mainnet"
  | .Testnet => .str "Testnet"
  | .Signet => .str "Signet"
  | .Regtest => .str "Regtest"

/-- Serde encoding of `MoneroNetwork`. -/
def encodeMoneroNetwork : MoneroNetwork → Json
  | .Mainnet => .str "Mainnet"
  | .Stagenet => .str "Stagenet"
  | .Testnet => .str "Testnet"

/-- Serde encoding of `BlockchainNetwork`: a struct encodes as an object with
one field per struct field. -/
def encodeBlockchainNetwork (n : BlockchainNetwork) : Json :=
  .obj [("bitcoin", encodeBitcoinNetwork n.bitcoin), ("monero", encodeMoneroNetwork n.monero)]

/-- Serde's externally tagged encoding of `enum Error`: a unit variant is its
name string; a struct variant is a one-field object mapping the variant name
to the object of its fields, amounts as integers. -/
def encodeError : Error → Json
  | .NoSwapsAccepted => .str "NoSwapsAccepted"
  | .AmountBelowMinimum mn buy =>
      .obj [("AmountBelowMinimum", .obj [("min", .num mn), ("buy", .num buy)])]
  | .AmountAboveMaximum mx buy =>
      .obj [("AmountAboveMaximum", .obj [("max", .num mx), ("buy", .num buy)])]
  | .BalanceTooLow buy =>
      .obj [("BalanceTooLow", .obj [("buy", .num buy)])]
  | .BlockchainNetworkMismatch cli asb =>
      .obj [("BlockchainNetworkMismatch",
        .obj [("cli", encodeBlockchainNetwork cli), ("asb", encodeBlockchainNetwork asb)])]
  | .Other => .str "Other"

/-- Serde's externally tagged encoding of `enum Response`: a newtype variant
is a one-field object mapping the variant name to the encoded payload. -/
def encodeResponse : Response → Json
  | .Xmr amount => .obj [("Xmr", .num amount)]
  | .Error e => .obj [("Error", encodeError e)]

/-- Decoder for `BitcoinNetwork`, inverting `encodeBitcoinNetwork`. -/
def decodeBitcoinNetwork : Json → Option BitcoinNetwork
  | .str "Mainnet" => some .Mainnet
  | .str "Testnet" => some .Testnet
  | .str "Signet" => some .Signet
  | .str "Regtest" => some .Regtest
  | _ => none

/-- Decoder for `MoneroNetwork`, inverting `encodeMoneroNetwork`. -/
def decodeMoneroNetwork : Json → Option MoneroNetwork
  | .str "Mainnet" => some .Mainnet
  | .str "Stagenet" => some .Stagenet
  | .str "Testnet" => some .Testnet
  | _ => none

/-- Decoder for `BlockchainNetwork`, inverting `encodeBlockchainNetwork`. -/
def decodeBlockchainNetwork : Json → Option BlockchainNetwork
  | .obj [("bitcoin", jb), ("monero", jm)] =>
      match decodeBitcoinNetwork jb, decodeMoneroNetwork jm with
      | some b, some m => some ⟨b, m⟩
      | _, _ => none
  | _ => none

/-- Decoder for `enum Error`, inverting `encodeError`. -/
def decodeError : Json → Option Error
  | .str "NoSwapsAccepted" => some .NoSwapsAccepted
  | .str "Other" => some .Other
  | .obj [("AmountBelowMinimum", .obj [("min", .num mn), ("buy", .num buy)])] =>
      some (.AmountBelowMinimum mn buy)
  | .obj [("AmountAboveMaximum", .obj [("max", .num mx), ("buy", .num buy)])] =>
      some (.AmountAboveMaximum mx buy)
  | .obj [("BalanceTooLow", .obj [("buy", .num buy)])] =>
      some (.BalanceTooLow buy)
  | .obj [("BlockchainNetworkMismatch", .obj [("cli", jc), ("asb", ja)])] =>
      match decodeBlockchainNetwork jc, decodeBlockchainNetwork ja with
      | some cli, some asb => some (.BlockchainNetworkMismatch cli asb)
      | _, _ => none
  | _ => none

/-- Decoder for `enum Response`, inverting `encodeResponse`. -/
def decodeResponse : Json → Option Response
  | .obj [("Xmr", .num amount)] => some (.Xmr amount)
  | .obj [("Error", je)] => (decodeError je).map .Error
  | _ => none

end spot_price

/-- Wire frames are byte sequences; bytes are modelled as `Nat`. -/
abbrev Bytes := List Nat

namespace bob

/-- Modelled from the spec: `bob::Message0` (defined outside the provided
sources) carries the dialer's round-0 cryptographic material; validating it
against `State0` can fail, which the model records in `proofValid`. -/
structure Message0 where
  payload : Nat
  proofValid : Bool
deriving DecidableEq

/-- Modelled from the spec: `bob::Message1` carries the dialer's round-1
material; once deserialized it needs no further validation at fold time. -/
structure Message1 where
  payload : Nat
deriving DecidableEq

/-- Modelled from the spec: `bob::Message2` carries the dialer's round-2
material, which must satisfy the cryptographic binding established by the
earlier rounds; the model records the bound value in `bindingTag`. -/
structure Message2 where
  bindingTag : Nat
deriving DecidableEq

end bob

namespace alice

/-- Modelled from the spec: `alice::Message0`, the listener's own round-0
message, derived deterministically from `State0`. -/
structure Message0 where
  payload : Nat
deriving DecidableEq

/-- Modelled from the spec: `alice::Message2`, the listener's own round-2
message, derived from `State2`. -/
structure Message2 where
  payload : Nat
deriving DecidableEq

/-- Modelled from the spec: `alice::State0`, the listener's cryptographic
material fixed at construction (no randomness is drawn after construction). -/
structure State0 where
  a : Nat
deriving DecidableEq

/-- Modelled from the spec: `alice::State1` owns `State0`'s material plus the
dialer's round-0 contribution. -/
structure State1 where
  a : Nat
  bob0 : Nat
deriving DecidableEq

/-- Modelled from the spec: `alice::State2` additionally owns the dialer's
round-1 contribution. -/
structure State2 where
  a : Nat
  bob0 : Nat
  bob1 : Nat
deriving DecidableEq

/-- Modelled from the spec: `alice::State3`, the fully folded handshake
bundle. -/
structure State3 where
  a : Nat
  bob0 : Nat
  bob1 : Nat
  tag : Nat
deriving DecidableEq

/-- Modelled from the spec: `State0::next_message` derives the listener's own
`Message0` from `State0` alone, deterministically. -/
def State0.next_message (s : State0) : Message0 := ⟨s.a⟩

/-- Modelled from the spec: `State0::receive` folds the dialer's `Message0`
into `State0`; validation failure (invalid proof material) is an error, which
the call site propagates with `?`. -/
def State0.receive (s : State0) (m : bob.Message0) : Option State1 :=
  if m.proofValid then some ⟨s.a, m.payload⟩ else none

/-- Modelled from the spec: `State1::receive` folds the dialer's `Message1`
into `State1`; the call site assigns its result directly (no `?`), so the
fold is a total function returning `State2`. -/
def State1.receive (s : State1) (m : bob.Message1) : State2 :=
  ⟨s.a, s.bob0, m.payload⟩

/-- Modelled from the spec: `State2::next_message` derives the listener's own
`Message2` from `State2`. -/
def State2.next_message (s : State2) : Message2 := ⟨s.a + s.bob1⟩

/-- Modelled from the spec: `State2::receive` folds the dialer's `Message2`
into `State2`, failing when the received material does not satisfy the
binding check established by the earlier rounds (here: the tag must match the
material accumulated in rounds 0 and 1). -/
def State2.receive (s : State2) (m : bob.Message2) : Option State3 :=
  if m.bindingTag = s.bob0 + s.bob1 then some ⟨s.a, s.bob0, s.bob1, m.bindingTag⟩ else none

end alice

namespace execution_setup

/-- Modelled from the spec: `crate::network::request_response::BUF_SIZE`, the
fixed maximum substream message size bounding each read. -/
def BUF_SIZE : Nat := 1048576

/-- Modelled from the spec: the serde_cbor encoding of the listener's
`Message0` (serialization is infallible here). -/
def serialize_alice_message0 (m : alice.Message0) : Bytes := [0, m.payload]

/-- Modelled from the spec: the serde_cbor encoding of the listener's
`Message2`. -/
def serialize_alice_message2 (m : alice.Message2) : Bytes := [2, m.payload]

/-- Modelled from the spec: `serde_cbor::from_slice::<bob::Message0>`.
Deserialization fails on any frame that is not a well-formed round-0
encoding. -/
def deserialize_bob_message0 : Bytes → Option bob.Message0
  | [0, p, 1] => some ⟨p, true⟩
  | [0, p, 0] => some ⟨p, false⟩
  | _ => none

/-- Modelled from the spec: `serde_cbor::from_slice::<bob::Message1>`. -/
def deserialize_bob_message1 : Bytes → Option bob.Message1
  | [1, p] => some ⟨p⟩
  | _ => none

/-- Modelled from the spec: `serde_cbor::from_slice::<bob::Message2>`. -/
def deserialize_bob_message2 : Bytes → Option bob.Message2
  | [2, t] => some ⟨t⟩
  | _ => none

/-- One observable wire action of the listener: receiving or sending the
frame of a given handshake round on the substream. -/
inductive WireEvent where
  | recv (round : Nat) (frame : Bytes)
  | send (round : Nat) (frame : Bytes)
deriving DecidableEq

/-- The ways `Behaviour::run`'s listener future can abort, mirroring the
`anyhow` contexts of `execution_setup.rs`: a failed substream read, a
`failed to deserialize messageN` error, or an error propagated by `?` from
`State0::receive` (validation) or `State2::receive` (binding check). -/
inductive HandshakeError where
  | readFailed (round : Nat)
  | deserializeFailed (round : Nat)
  | invalidMessage0
  | invalidMessage2
deriving DecidableEq

/-- Modelled from the spec: `substream.read_message(BUF_SIZE)` reads the next
frame, failing when the channel is exhausted or the frame exceeds the fixed
maximum size. -/
def read_message : List Bytes → Option (Bytes × List Bytes)
  | [] => none
  | f :: rest => if f.length ≤ BUF_SIZE then some (f, rest) else none

/-- The listener future of `Behaviour::run` in `execution_setup.rs`, embedded
as a function from the listener's `State0` and the sequence of incoming
frames to the ordered trace of wire events it performed together with its
result. The steps mirror the source line by line: derive `alice_message0`
from `state0`; read and deserialize the peer's message0 and fold it
(`state0.receive(bob_message0)?`); write `alice_message0`; read and
deserialize the peer's message1 and fold it (`state1.receive(bob_message1)`,
no `?`); write `alice_message2 = state2.next_message()`; read and deserialize
the peer's message2 and fold it (`state2.receive(bob_message2)?`). -/
def runListener (state0 : alice.State0) (input : List Bytes) :
    List WireEvent × Except HandshakeError alice.State3 :=
  let alice_message0 := state0.next_message
  match read_message input with
  | none => ([], .error (.readFailed 0))
  | some (f0, input1) =>
    match deserialize_bob_message0 f0 with
    | none => ([.recv 0 f0], .error (.deserializeFailed 0))
    | some bob_message0 =>
      match state0.receive bob_message0 with
      | none => ([.recv 0 f0], .error .invalidMessage0)
      | some state1 =>
        let w0 := serialize_alice_message0 alice_message0
        match read_message input1 with
        | none => ([.recv 0 f0, .send 0 w0], .error (.readFailed 1))
        | some (f1, input2) =>
          match deserialize_bob_message1 f1 with
          | none => ([.recv 0 f0, .send 0 w0, .recv 1 f1], .error (.deserializeFailed 1))
          | some bob_message1 =>
            let state2 := state1.receive bob_message1
            let w2 := serialize_alice_message2 state2.next_message
            match read_message input2 with
            | none =>
                ([.recv 0 f0, .send 0 w0, .recv 1 f1, .send 2 w2], .error (.readFailed 2))
            | some (f2, _) =>
              match deserialize_bob_message2 f2 with
              | none =>
                  ([.recv 0 f0, .send 0 w0, .recv 1 f1, .send 2 w2, .recv 2 f2],
                    .error (.deserializeFailed 2))
              | some bob_message2 =>
                match state2.receive bob_message2 with
                | none =>
                    ([.recv 0 f0, .send 0 w0, .recv 1 f1, .send 2 w2, .recv 2 f2],
                      .error .invalidMessage2)
                | some state3 =>
                    ([.recv 0 f0, .send 0 w0, .recv 1 f1, .send 2 w2, .recv 2 f2],
                      .ok state3)

/-- A trace contains a round-1 send event. -/
def sends_message1 (tr : List WireEvent) : Bool :=
  tr.any fun e =>
    match e with
    | .send 1 _ => true
    | _ => false

/-- A trace is an initial segment of the wire-step order the listener
actually follows: receive round 0, send round 0, receive round 1, send
round 2, receive round 2. -/
def ordered_trace : List WireEvent → Bool
  | [] => true
  | [.recv 0 _] => true
  | [.recv 0 _, .send 0 _] => true
  | [.recv 0 _, .send 0 _, .recv 1 _] => true
  | [.recv 0 _, .send 0 _, .recv 1 _, .send 2 _] => true
  | [.recv 0 _, .send 0 _, .recv 1 _, .send 2 _, .recv 2 _] => true
  | _ => false

end execution_setup

/-! ### Theorems -/

/-- C4: for every average block time `t`, `sync_interval(t)` equals
`max(t/10, 1s)`; in particular `sync_interval(1s) = 1s` and
`sync_interval(100s) = 10s`. -/
theorem sync_interval_spec :
    (∀ t : Duration, env.sync_interval t = max (t / 10) (Duration.from_secs 1)) ∧
    env.sync_interval (Duration.from_secs 1) = Duration.from_secs 1 ∧
    env.sync_interval (Duration.from_secs 100) = Duration.from_secs 10 := by
  refine ⟨fun t => rfl, by decide, by decide⟩

/-- C6: every deployment tier's config has strictly positive cancel and
punish timelock block counts, and a bitcoin lock-confirmation timeout
strictly greater than one bitcoin average block time. -/
theorem config_tiers_consistent :
    (0 < env.Mainnet.get_config.bitcoin_cancel_timelock.blocks ∧
      0 < env.Mainnet.get_config.bitcoin_punish_timelock.blocks ∧
      env.Mainnet.get_config.bitcoin_avg_block_time <
        env.Mainnet.get_config.bitcoin_lock_confirmed_timeout) ∧
    (0 < env.Testnet.get_config.bitcoin_cancel_timelock.blocks ∧
      0 < env.Testnet.get_config.bitcoin_punish_timelock.blocks ∧
      env.Testnet.get_config.bitcoin_avg_block_time <
        env.Testnet.get_config.bitcoin_lock_confirmed_timeout) ∧
    (0 < env.Regtest.get_config.bitcoin_cancel_timelock.blocks ∧
      0 < env.Regtest.get_config.bitcoin_punish_timelock.blocks ∧
      env.Regtest.get_config.bitcoin_avg_block_time <
        env.Regtest.get_config.bitcoin_lock_confirmed_timeout) := by
  decide

/-- C7: the Regtest tier pins its monero network identifier to the same value
as the Mainnet tier's, while every other tier pair differs in its monero
network identifier. -/
theorem regtest_monero_network_pinned_to_mainnet :
    env.Regtest.get_config.monero_network = env.Mainnet.get_config.monero_network ∧
    env.Mainnet.get_config.monero_network ≠ env.Testnet.get_config.monero_network ∧
    env.Testnet.get_config.monero_network ≠ env.Regtest.get_config.monero_network := by
  decide

/-- C8: the builder-style overrides return a copy with exactly the targeted
finality-confirmation field replaced and every other field of the base config
unchanged (the base value itself is pure data and is never mutated). -/
theorem with_finality_confirmations_frame :
    ∀ (c : env.Config) (n : Nat),
      ((c.with_bitcoin_finality_confirmations n).bitcoin_finality_confirmations = n ∧
        (c.with_bitcoin_finality_confirmations n).bitcoin_lock_confirmed_timeout =
          c.bitcoin_lock_confirmed_timeout ∧
        (c.with_bitcoin_finality_confirmations n).bitcoin_avg_block_time =
          c.bitcoin_avg_block_time ∧
        (c.with_bitcoin_finality_confirmations n).bitcoin_cancel_timelock =
          c.bitcoin_cancel_timelock ∧
        (c.with_bitcoin_finality_confirmations n).bitcoin_punish_timelock =
          c.bitcoin_punish_timelock ∧
        (c.with_bitcoin_finality_confirmations n).bitcoin_network = c.bitcoin_network ∧
        (c.with_bitcoin_finality_confirmations n).monero_avg_block_time =
          c.monero_avg_block_time ∧
        (c.with_bitcoin_finality_confirmations n).monero_finality_confirmations =
          c.monero_finality_confirmations ∧
        (c.with_bitcoin_finality_confirmations n).monero_network = c.monero_network) ∧
      ((c.with_monero_finality_confirmations n).monero_finality_confirmations = n ∧
        (c.with_monero_finality_confirmations n).bitcoin_lock_confirmed_timeout =
          c.bitcoin_lock_confirmed_timeout ∧
        (c.with_monero_finality_confirmations n).bitcoin_finality_confirmations =
          c.bitcoin_finality_confirmations ∧
        (c.with_monero_finality_confirmations n).bitcoin_avg_block_time =
          c.bitcoin_avg_block_time ∧
        (c.with_monero_finality_confirmations n).bitcoin_cancel_timelock =
          c.bitcoin_cancel_timelock ∧
        (c.with_monero_finality_confirmations n).bitcoin_punish_timelock =
          c.bitcoin_punish_timelock ∧
        (c.with_monero_finality_confirmations n).bitcoin_network = c.bitcoin_network ∧
        (c.with_monero_finality_confirmations n).monero_avg_block_time =
          c.monero_avg_block_time ∧
        (c.with_monero_finality_confirmations n).monero_network = c.monero_network) :=
  fun _ _ =>
    ⟨⟨rfl, rfl, rfl, rfl, rfl, rfl, rfl, rfl, rfl⟩,
      ⟨rfl, rfl, rfl, rfl, rfl, rfl, rfl, rfl, rfl⟩⟩

/-- C10: the chain-to-wire network conversions are total functions (the Lean
embedding mirrors the exhaustive, panic-free matches of `spot_price.rs`) and
are injective; consequently equality of converted `BlockchainNetwork` values
coincides with equality of the underlying chain network identities. -/
theorem network_conversions_injective :
    (∀ a b : bitcoin.Network,
        spot_price.BitcoinNetwork.from_chain a = spot_price.BitcoinNetwork.from_chain b ↔
          a = b) ∧
    (∀ a b : monero.Network,
        spot_price.MoneroNetwork.from_chain a = spot_price.MoneroNetwork.from_chain b ↔
          a = b) ∧
    (∀ (b1 b2 : bitcoin.Network) (m1 m2 : monero.Network),
        spot_price.BlockchainNetwork.of_chain b1 m1 =
            spot_price.BlockchainNetwork.of_chain b2 m2 ↔
          b1 = b2 ∧ m1 = m2) := by
  refine ⟨?_, ?_, ?_⟩
  · intro a b
    cases a <;> cases b <;> decide
  · intro a b
    cases a <;> cases b <;> decide
  · intro b1 b2 m1 m2
    cases b1 <;> cases b2 <;> cases m1 <;> cases m2 <;> decide

/-- C5: every negotiation `Response` value round-trips losslessly through the
structured wire encoding, with amounts carried as integer smallest-unit
counts; a quoted amount of 100000 piconero encodes exactly as the object
mapping key Xmr to the number 100000, and a `BlockchainNetworkMismatch`
rejection keeps both parties' network pairs intact and recoverable. -/
theorem response_roundtrip :
    (∀ r : spot_price.Response,
        spot_price.decodeResponse (spot_price.encodeResponse r) = some r) ∧
    spot_price.encodeResponse (.Xmr 100000) = .obj [("Xmr", .num 100000)] ∧
    (∀ cli asb : spot_price.BlockchainNetwork,
        spot_price.decodeResponse (spot_price.encodeResponse
            (.Error (.BlockchainNetworkMismatch cli asb))) =
          some (.Error (.BlockchainNetworkMismatch cli asb))) := by
  refine ⟨?_, rfl, ?_⟩
  · intro r
    match r with
    | .Xmr amount => rfl
    | .Error .NoSwapsAccepted => rfl
    | .Error (.AmountBelowMinimum mn buy) => rfl
    | .Error (.AmountAboveMaximum mx buy) => rfl
    | .Error (.BalanceTooLow buy) => rfl
    | .Error (.BlockchainNetworkMismatch ⟨cb, cm⟩ ⟨ab, am⟩) =>
      cases cb <;> cases cm <;> cases ab <;> cases am <;> rfl
    | .Error .Other => rfl
  · intro cli asb
    match cli, asb with
    | ⟨cb, cm⟩, ⟨ab, am⟩ => cases cb <;> cases cm <;> cases ab <;> cases am <;> rfl

/-- Helper: exhaustive characterization of the listener run's wire trace and
result. The listener's own message0 bytes are always derived from `state0`
alone; the trace grows strictly in the order receive 0, send 0, receive 1,
send 2, receive 2; and each abort leaves exactly the prefix performed so
far. -/
theorem runListener_cases (s0 : alice.State0) (input : List Bytes) :
    ∃ tr res, execution_setup.runListener s0 input = (tr, res) ∧
      ((tr = [] ∧ res = .error (.readFailed 0)) ∨
      (∃ f0, tr = [.recv 0 f0] ∧
        execution_setup.deserialize_bob_message0 f0 = none ∧
        res = .error (.deserializeFailed 0)) ∨
      (∃ f0, tr = [.recv 0 f0] ∧ res = .error .invalidMessage0) ∨
      (∃ f0, tr = [.recv 0 f0, .send 0 (execution_setup.serialize_alice_message0 s0.next_message)] ∧
        res = .error (.readFailed 1)) ∨
      (∃ f0 f1, tr = [.recv 0 f0, .send 0 (execution_setup.serialize_alice_message0 s0.next_message), .recv 1 f1] ∧
        execution_setup.deserialize_bob_message1 f1 = none ∧
        res = .error (.deserializeFailed 1)) ∨
      (∃ f0 f1 w2, tr = [.recv 0 f0, .send 0 (execution_setup.serialize_alice_message0 s0.next_message), .recv 1 f1, .send 2 w2] ∧
        res = .error (.readFailed 2)) ∨
      (∃ f0 f1 w2 f2,
        tr = [.recv 0 f0, .send 0 (execution_setup.serialize_alice_message0 s0.next_message), .recv 1 f1, .send 2 w2, .recv 2 f2] ∧
        (res = .error (.deserializeFailed 2) ∨ res = .error .invalidMessage2 ∨
          ∃ s3, res = .ok s3))) := by
  unfold execution_setup.runListener
  simp only []
  repeat' split
  · exact ⟨_, _, rfl, Or.inl ⟨rfl, rfl⟩⟩
  all_goals first
  | exact ⟨_, _, rfl, Or.inr (Or.inl ⟨_, rfl, by assumption, rfl⟩)⟩
  | exact ⟨_, _, rfl, Or.inr (Or.inr (Or.inl ⟨_, rfl, rfl⟩))⟩
  | exact ⟨_, _, rfl, Or.inr (Or.inr (Or.inr (Or.inl ⟨_, rfl, rfl⟩)))⟩
  | exact ⟨_, _, rfl, Or.inr (Or.inr (Or.inr (Or.inr (Or.inl
      ⟨_, _, rfl, by assumption, rfl⟩))))⟩
  | exact ⟨_, _, rfl, Or.inr (Or.inr (Or.inr (Or.inr (Or.inr (Or.inl
      ⟨_, _, _, rfl, rfl⟩)))))⟩
  | exact ⟨_, _, rfl, Or.inr (Or.inr (Or.inr (Or.inr (Or.inr (Or.inr
      ⟨_, _, _, _, rfl, Or.inl rfl⟩)))))⟩
  | exact ⟨_, _, rfl, Or.inr (Or.inr (Or.inr (Or.inr (Or.inr (Or.inr
      ⟨_, _, _, _, rfl, Or.inr (Or.inl rfl)⟩)))))⟩
  | exact ⟨_, _, rfl, Or.inr (Or.inr (Or.inr (Or.inr (Or.inr (Or.inr
      ⟨_, _, _, _, rfl, Or.inr (Or.inr ⟨_, rfl⟩)⟩)))))⟩

/-- C1 counterexample: a complete successful listener run (the input frames
deserialize, validate, and satisfy the binding check, and the run ends in
`State3`) whose wire trace contains no round-1 send at all — the listener
writes its round-2 message without ever having written a round-1 message,
contradicting the claimed round ordering in which the listener emits its own
Message1 before emitting Message2. -/
theorem listener_sends_no_message1_counterexample :
    (execution_setup.runListener ⟨5⟩ [[0, 7, 1], [1, 9], [2, 16]]).2 =
      Except.ok ⟨5, 7, 9, 16⟩ ∧
    execution_setup.sends_message1
      (execution_setup.runListener ⟨5⟩ [[0, 7, 1], [1, 9], [2, 16]]).1 = false ∧
    (execution_setup.runListener ⟨5⟩ [[0, 7, 1], [1, 9], [2, 16]]).1 =
      [.recv 0 [0, 7, 1], .send 0 [0, 5], .recv 1 [1, 9], .send 2 [2, 14],
        .recv 2 [2, 16]] :=
  ⟨rfl, rfl, rfl⟩

/-- C1 (amended): the listener's rounds are strictly ordered as receive and
fold the peer's Message0 (State0 to State1), emit its own Message0, receive
and fold the peer's Message1 (State1 to State2), emit its own Message2, and
only then receive and fold the peer's Message2 to reach State3; the listener
never writes a Message1 of its own, and no wire event is ever performed out
of this order (every run's trace is an initial segment of that sequence). -/
theorem listener_round_order (s0 : alice.State0) (input : List Bytes) :
    execution_setup.sends_message1 (execution_setup.runListener s0 input).1 = false ∧
    execution_setup.ordered_trace (execution_setup.runListener s0 input).1 = true ∧
    ∀ s3 : alice.State3,
      (execution_setup.runListener s0 input).2 = Except.ok s3 →
      ∃ f0 f1 w2 f2, (execution_setup.runListener s0 input).1 =
        [.recv 0 f0,
          .send 0 (execution_setup.serialize_alice_message0 s0.next_message),
          .recv 1 f1, .send 2 w2, .recv 2 f2] := by
  obtain ⟨tr, res, hrun, hcases⟩ := runListener_cases s0 input
  simp only [hrun]
  rcases hcases with ⟨rfl, rfl⟩ | ⟨f0, rfl, hde, rfl⟩ | ⟨f0, rfl, rfl⟩ | ⟨f0, rfl, rfl⟩
      | ⟨f0, f1, rfl, hde, rfl⟩ | ⟨f0, f1, w2, rfl, rfl⟩ | ⟨f0, f1, w2, f2, rfl, hres⟩
  · exact ⟨rfl, rfl, fun s3 h => Except.noConfusion h⟩
  · exact ⟨rfl, rfl, fun s3 h => Except.noConfusion h⟩
  · exact ⟨rfl, rfl, fun s3 h => Except.noConfusion h⟩
  · exact ⟨rfl, rfl, fun s3 h => Except.noConfusion h⟩
  · exact ⟨rfl, rfl, fun s3 h => Except.noConfusion h⟩
  · exact ⟨rfl, rfl, fun s3 h => Except.noConfusion h⟩
  · exact ⟨rfl, rfl, fun s3 h => ⟨f0, f1, w2, f2, rfl⟩⟩

/-- C1 witness: the amended ordering theorem applied to a concrete successful
run. -/
theorem listener_round_order_witness :
    (execution_setup.runListener ⟨5⟩ [[0, 7, 1], [1, 9], [2, 16]]).2 =
      Except.ok ⟨5, 7, 9, 16⟩ ∧
    ∃ f0 f1 w2 f2, (execution_setup.runListener ⟨5⟩ [[0, 7, 1], [1, 9], [2, 16]]).1 =
      [.recv 0 f0,
        .send 0 (execution_setup.serialize_alice_message0
          (alice.State0.next_message ⟨5⟩)),
        .recv 1 f1, .send 2 w2, .recv 2 f2] :=
  ⟨rfl, (listener_round_order ⟨5⟩ [[0, 7, 1], [1, 9], [2, 16]]).2.2 ⟨5, 7, 9, 16⟩ rfl⟩

/-- C2: if the first incoming frame fits the read buffer but fails to
deserialize as `bob::Message0`, the listener handshake aborts as a whole with
the round-0 deserialization error — which is a different error value than
the round-0 validation error — having performed no wire action beyond that
first read: no message is sent, no `State1`/`State2`/`State3` is produced,
and the result carries no bundle. -/
theorem message0_deserialize_failure_aborts (s0 : alice.State0) (f0 : Bytes)
    (rest : List Bytes) (hlen : f0.length ≤ execution_setup.BUF_SIZE)
    (hde : execution_setup.deserialize_bob_message0 f0 = none) :
    execution_setup.runListener s0 (f0 :: rest) =
      ([.recv 0 f0], .error (.deserializeFailed 0)) ∧
    execution_setup.HandshakeError.deserializeFailed 0 ≠
      execution_setup.HandshakeError.invalidMessage0 := by
  refine ⟨?_, by decide⟩
  simp [execution_setup.runListener, execution_setup.read_message, hlen, hde]

/-- C2 witness: the abort theorem applied to a concrete undecodable frame. -/
theorem message0_deserialize_failure_aborts_witness :
    ([9] : Bytes).length ≤ execution_setup.BUF_SIZE ∧
    execution_setup.deserialize_bob_message0 [9] = none ∧
    (execution_setup.runListener ⟨5⟩ [[9]] =
        ([.recv 0 [9]], .error (.deserializeFailed 0)) ∧
      execution_setup.HandshakeError.deserializeFailed 0 ≠
        execution_setup.HandshakeError.invalidMessage0) :=
  ⟨by decide, rfl, message0_deserialize_failure_aborts ⟨5⟩ [9] [] (by decide) rfl⟩

/-- C3: folding the peer's Message1 into `State1` is infallible — it is a
total function into `State2`, and consequently a run that has received a
deserializable Message1 frame always goes on to write its round-2 message —
whereas folding the peer's Message2 into `State2` fails exactly when the
received material does not satisfy the binding check established by the
earlier rounds, and some runs do abort there. -/
theorem message1_fold_infallible_message2_fold_fallible :
    (∀ (s1 : alice.State1) (m1 : bob.Message1),
        alice.State1.receive s1 m1 = ⟨s1.a, s1.bob0, m1.payload⟩) ∧
    (∀ (s0 : alice.State0) (input : List Bytes) (f1 : Bytes) (m1 : bob.Message1),
        execution_setup.WireEvent.recv 1 f1 ∈ (execution_setup.runListener s0 input).1 →
        execution_setup.deserialize_bob_message1 f1 = some m1 →
        ∃ w, execution_setup.WireEvent.send 2 w ∈
          (execution_setup.runListener s0 input).1) ∧
    (∀ (s2 : alice.State2) (m2 : bob.Message2),
        alice.State2.receive s2 m2 = none ↔ m2.bindingTag ≠ s2.bob0 + s2.bob1) ∧
    (∃ (s0 : alice.State0) (input : List Bytes),
        (execution_setup.runListener s0 input).2 =
          Except.error execution_setup.HandshakeError.invalidMessage2) := by
  refine ⟨fun s1 m1 => rfl, ?_, ?_, ⟨⟨5⟩, [[0, 7, 1], [1, 9], [2, 0]], rfl⟩⟩
  · intro s0 input f1 m1 hf hm
    obtain ⟨tr, res, hrun, hcases⟩ := runListener_cases s0 input
    rw [hrun] at hf ⊢
    rcases hcases with ⟨rfl, rfl⟩ | ⟨f0, rfl, hde, rfl⟩ | ⟨f0, rfl, rfl⟩ | ⟨f0, rfl, rfl⟩
        | ⟨f0, f1h, rfl, hde, rfl⟩ | ⟨f0, f1h, w2, rfl, rfl⟩ | ⟨f0, f1h, w2, f2, rfl, hres⟩
    · simp at hf
    · simp at hf
    · simp at hf
    · simp at hf
    · simp_all
    · exact ⟨w2, by simp⟩
    · exact ⟨w2, by simp⟩
  · intro s2 m2
    unfold alice.State2.receive
    split <;> simp_all

/-- C3 witness: the infallibility part applied to a concrete run whose
Message1 frame deserializes. -/
theorem message1_fold_infallible_witness :
    execution_setup.WireEvent.recv 1 [1, 9] ∈
      (execution_setup.runListener ⟨5⟩ [[0, 7, 1], [1, 9], [2, 16]]).1 ∧
    execution_setup.deserialize_bob_message1 [1, 9] = some ⟨9⟩ ∧
    ∃ w, execution_setup.WireEvent.send 2 w ∈
      (execution_setup.runListener ⟨5⟩ [[0, 7, 1], [1, 9], [2, 16]]).1 :=
  ⟨by decide, rfl,
    message1_fold_infallible_message2_fold_fallible.2.1 ⟨5⟩
      [[0, 7, 1], [1, 9], [2, 16]] [1, 9] ⟨9⟩ (by decide) rfl⟩

/-- C9: the listener's own Message0 is a deterministic function of `State0`
alone — whatever the peer sends, any round-0 frame the listener writes to the
channel is exactly the serialization of `state0.next_message()`, so two runs
started from the same `State0` write identical Message0 bytes. -/
theorem alice_message0_deterministic (s0 : alice.State0) (input : List Bytes)
    (f : Bytes)
    (hf : execution_setup.WireEvent.send 0 f ∈ (execution_setup.runListener s0 input).1) :
    f = execution_setup.serialize_alice_message0 s0.next_message := by
  obtain ⟨tr, res, hrun, hcases⟩ := runListener_cases s0 input
  rw [hrun] at hf
  rcases hcases with ⟨rfl, rfl⟩ | ⟨f0, rfl, hde, rfl⟩ | ⟨f0, rfl, rfl⟩ | ⟨f0, rfl, rfl⟩
      | ⟨f0, f1, rfl, hde, rfl⟩ | ⟨f0, f1, w2, rfl, rfl⟩ | ⟨f0, f1, w2, f2, rfl, hres⟩
  all_goals simp_all

/-- C9 witness: the determinism theorem applied to the round-0 frame written
in a concrete run. -/
theorem alice_message0_deterministic_witness :
    execution_setup.WireEvent.send 0 [0, 5] ∈
      (execution_setup.runListener ⟨5⟩ [[0, 7, 1], [1, 9], [2, 16]]).1 ∧
    ([0, 5] : Bytes) =
      execution_setup.serialize_alice_message0 (alice.State0.next_message ⟨5⟩) :=
  ⟨by decide,
    alice_message0_deterministic ⟨5⟩ [[0, 7, 1], [1, 9], [2, 16]] [0, 5] (by decide)⟩

end XmrBtcSwap
